import Mathlib

/-!
Verification of the sprite-canvas application (App.tsx and its service layer).

The development shallowly embeds the parts of the source that the claims
touch:

* the matting engine `processImageForTransparency` (pixel pass, tight
  bounding box sweep, fallback rectangle);
* the sprite record `ProcessedImage` and the registry operations
  (`handleScaleChange`, `handleFlipSelected`, `handleDeleteSelected`,
  `handleDuplicateSelected`, `handleRegenerateSelected`, `handleRemixSubmit`);
* the hit tester `getImageAtPosition`;
* the registry effects of the generation orchestrator
  (`generateFromImage` and `generateFromText` success and failure paths).

Machine numbers in the source are JavaScript doubles; every quantity the
claims mention is produced by exact arithmetic on small integers and
divisions of such, so geometry is modelled with `Rat` and pixel data with
`Nat`/`Int`.
-/

/-! ## Matting engine (processImageForTransparency, App.tsx lines 184-257) -/

/-- One RGBA pixel of the decoded raster, each channel 0..255. -/
structure Pixel where
  r : Nat
  g : Nat
  b : Nat
  a : Nat

/-- A decoded raster image: dimensions plus a pixel lookup.  The source
reads pixels from the `ImageData` byte array at `(y * width + x) * 4`. -/
structure PixelImage where
  width : Nat
  height : Nat
  pix : Nat → Nat → Pixel

/-- `COLOR_DISTANCE_THRESHOLD = 20` from App.tsx line 130. -/
def COLOR_DISTANCE_THRESHOLD : Nat := 20

/-- Squared Euclidean RGB distance, as in App.tsx line 216. -/
def distSq (p q : Pixel) : Int :=
  ((p.r : Int) - (q.r : Int)) ^ 2 + ((p.g : Int) - (q.g : Int)) ^ 2
    + ((p.b : Int) - (q.b : Int)) ^ 2

/-- The alpha value of pixel `(x, y)` after the matting pass: alpha is set
to 0 when the squared distance to the top-left background pixel is below
the squared threshold (App.tsx lines 202-221), otherwise the original
alpha survives. -/
def matteAlpha (img : PixelImage) (x y : Nat) : Nat :=
  let bg := img.pix 0 0
  let p := img.pix x y
  if distSq p bg < (COLOR_DISTANCE_THRESHOLD : Int) ^ 2 then 0 else p.a

/-- State of the bounding-box sweep: `minX, minY, maxX, maxY` of App.tsx
line 209, initialised to `(width, height, -1, -1)`. -/
structure BBox where
  minX : Int
  minY : Int
  maxX : Int
  maxY : Int

def bboxInit (img : PixelImage) : BBox :=
  { minX := img.width, minY := img.height, maxX := -1, maxY := -1 }

/-- One iteration of the sweep of App.tsx lines 224-234: a pixel whose
post-matting alpha is positive extends the running extrema. -/
def bboxStep (img : PixelImage) (s : BBox) (c : Nat × Nat) : BBox :=
  if matteAlpha img c.1 c.2 > 0 then
    { minX := if (c.1 : Int) < s.minX then (c.1 : Int) else s.minX
      maxX := if (c.1 : Int) > s.maxX then (c.1 : Int) else s.maxX
      minY := if (c.2 : Int) < s.minY then (c.2 : Int) else s.minY
      maxY := if (c.2 : Int) > s.maxY then (c.2 : Int) else s.maxY }
  else s

/-- Row-major pixel coordinates, matching the loop nest `for y ... for x`
of App.tsx lines 224-225. -/
def coords (w h : Nat) : List (Nat × Nat) :=
  (List.range h).flatMap fun y => (List.range w).map fun x => (x, y)

def bboxScan (img : PixelImage) : BBox :=
  (coords img.width img.height).foldl (bboxStep img) (bboxInit img)

/-- A rectangle in pixel space (the `contentBounds` shape). -/
structure PixelRect where
  x : Int
  y : Int
  width : Int
  height : Int
deriving DecidableEq

/-- The `contentBounds` computed by `processImageForTransparency`
(App.tsx lines 241-243): the inclusive tight bound when some pixel
survived, otherwise the full image rectangle. -/
def contentBoundsOf (img : PixelImage) : PixelRect :=
  let s := bboxScan img
  if s.maxX ≥ s.minX ∧ s.maxY ≥ s.minY then
    { x := s.minX, y := s.minY,
      width := s.maxX - s.minX + 1, height := s.maxY - s.minY + 1 }
  else
    { x := 0, y := 0, width := img.width, height := img.height }

/-! ### The concrete image of claim C1 -/

/-- The concrete test image of claim C1: a 64 by 64 raster, white
everywhere except a fully opaque red square on pixels (20,20)..(60,60). -/
def redSquareImage : PixelImage :=
  { width := 64, height := 64,
    pix := fun x y =>
      if 20 ≤ x ∧ x ≤ 60 ∧ 20 ≤ y ∧ y ≤ 60 then
        { r := 255, g := 0, b := 0, a := 255 }
      else
        { r := 255, g := 255, b := 255, a := 255 } }

/-- The 100 by 100 all-white image named by claim C2. -/
def allWhiteImage : PixelImage :=
  { width := 100, height := 100,
    pix := fun _ _ => { r := 255, g := 255, b := 255, a := 255 } }

/-! ## Sprite data model (ProcessedImage, App.tsx lines 133-177)

Geometry is exact rational arithmetic.  An `HTMLImageElement` is modelled
by the data the registry code reads from it: its pixel dimensions.
Metadata fields the claims never touch (timestamps, 3D or video payloads)
are omitted. -/

/-- The decoded raster held by a sprite, as read by the registry code
(`.width` and `.height`). -/
structure ImageHandle where
  width : Rat
  height : Rat
deriving DecidableEq

/-- A rectangle in sprite geometry (the `contentBounds` field shape). -/
structure RatRect where
  x : Rat
  y : Rat
  width : Rat
  height : Rat
deriving DecidableEq

/-- The sprite record of App.tsx lines 133-177, restricted to the fields
the claims touch.  Optional TypeScript fields are `Option`. -/
structure ProcessedImage where
  id : Nat
  sourceFile : Option Nat
  sourceText : Option String
  processedImage : Option ImageHandle
  showOriginal : Option Bool
  x : Rat
  y : Rat
  width : Rat
  height : Rat
  isGenerating : Bool
  contentBounds : RatRect
  sourcePreviewUrl : Option String
  flippedHorizontally : Option Bool
  isVariation : Option Bool
  remixSuggestions : Option (List String)
  generatingPrompt : Option String
  scale : Option Rat
deriving DecidableEq

/-- `IMAGE_WIDTH = 375` from App.tsx line 122. -/
def IMAGE_WIDTH : Rat := 375

/-- JavaScript `img.scale || 1` (App.tsx lines 507, 661, 1104): a missing
or falsy (zero) scale reads as 1. -/
def jsScale (o : Option Rat) : Rat :=
  match o with
  | none => 1
  | some s => if s = 0 then 1 else s

/-- JavaScript `!img.flippedHorizontally` on an optional boolean
(App.tsx line 1262): a missing flag is falsy. -/
def jsNot (o : Option Bool) : Bool :=
  !(o.getD false)

/-- `selectedImage` (App.tsx lines 347-350): the sprite found by the
selected id, when any. -/
def selectedImageOf (images : List ProcessedImage) (selectedImageId : Option Nat) :
    Option ProcessedImage :=
  match selectedImageId with
  | none => none
  | some i => images.find? fun img => img.id == i

/-- `isActionDisabled` (App.tsx line 352): no sprite selected, or the
selected sprite is mid-generation. -/
def isActionDisabled (images : List ProcessedImage) (sel : Option Nat) : Bool :=
  match selectedImageOf images sel with
  | none => true
  | some s => s.isGenerating

/-! ## Registry mutations (the handlers of App.tsx) -/

/-- `handleScaleChange` (App.tsx lines 1782-1786): unconditionally patch
the scale of the sprite with the given id. -/
def handleScaleChange (images : List ProcessedImage) (imageId : Nat) (newScale : Rat) :
    List ProcessedImage :=
  images.map fun img => if img.id == imageId then { img with scale := some newScale } else img

/-- Registry effect of `handleFlipSelected` (App.tsx lines 1254-1266):
guarded by `isActionDisabled`, then toggles `flippedHorizontally` of the
sprite with the selected id. -/
def handleFlipSelected (images : List ProcessedImage) (sel : Option Nat) :
    List ProcessedImage :=
  if isActionDisabled images sel then images
  else
    match sel with
    | none => images
    | some i =>
      match images.find? (fun img => img.id == i) with
      | none => images
      | some _ =>
        images.map fun img =>
          if img.id == i then { img with flippedHorizontally := some (jsNot img.flippedHorizontally) }
          else img

/-- Registry effect of `handleDeleteSelected` (App.tsx lines 1232-1238):
guarded, then filters out the selected id. -/
def handleDeleteSelected (images : List ProcessedImage) (sel : Option Nat) :
    List ProcessedImage :=
  if isActionDisabled images sel then images
  else
    match sel with
    | none => images
    | some i => images.filter fun img => !(img.id == i)

/-- Registry effect of `handleRegenerateSelected` (App.tsx lines
1240-1252): guarded, then marks the selected sprite as generating
(the later asynchronous completion is modelled separately). -/
def handleRegenerateSelected (images : List ProcessedImage) (sel : Option Nat) :
    List ProcessedImage :=
  if isActionDisabled images sel then images
  else
    match sel with
    | none => images
    | some i =>
      match images.find? (fun img => img.id == i) with
      | none => images
      | some _ =>
        images.map fun img =>
          if img.id == i then { img with isGenerating := true, generatingPrompt := none }
          else img

/-- Registry effect of `handleDuplicateSelected` (App.tsx lines
1268-1292): guarded, then appends a copy with a fresh id offset by
(40, 20). -/
def handleDuplicateSelected (images : List ProcessedImage) (sel : Option Nat) (newId : Nat) :
    List ProcessedImage :=
  if isActionDisabled images sel then images
  else
    match sel with
    | none => images
    | some i =>
      match images.find? (fun img => img.id == i) with
      | none => images
      | some img => images ++ [{ img with id := newId, x := img.x + 40, y := img.y + 20 }]

/-- Registry effect of `handleRemixSubmit` (App.tsx lines 1294-1326):
guarded, requires the selected sprite to hold a processed image, then
appends a new generating variation sprite. -/
def handleRemixSubmit (images : List ProcessedImage) (sel : Option Nat) (newId : Nat)
    (prompt : String) : List ProcessedImage :=
  if isActionDisabled images sel then images
  else
    match sel with
    | none => images
    | some i =>
      match images.find? (fun img => img.id == i) with
      | none => images
      | some img =>
        match img.processedImage with
        | none => images
        | some pimg =>
          images ++ [{ id := newId,
                       sourceFile := some newId,
                       sourceText := none,
                       processedImage := some pimg,
                       showOriginal := none,
                       x := img.x + 40, y := img.y + 20,
                       width := img.width, height := img.height,
                       isGenerating := true,
                       contentBounds := { x := 0, y := 0, width := img.width, height := img.height },
                       sourcePreviewUrl := none,
                       flippedHorizontally := img.flippedHorizontally,
                       isVariation := some true,
                       remixSuggestions := none,
                       generatingPrompt := some prompt,
                       scale := none }]

/-! ## Hit tester (getImageAtPosition, App.tsx lines 1101-1137) -/

/-- Per-sprite test of the loop body in `getImageAtPosition`: first the
scaled rectangle, then the whole-box rule for generating sprites, then
the content-bounds test mapped through the rectangle-to-image ratio.
The `flippedHorizontally` flag is never consulted here. -/
def hitTestSprite (img : ProcessedImage) (x y : Rat) : Bool :=
  let scale := jsScale img.scale
  let scaledWidth := img.width * scale
  let scaledHeight := img.height * scale
  if x ≥ img.x ∧ x ≤ img.x + scaledWidth ∧ y ≥ img.y ∧ y ≤ img.y + scaledHeight then
    if img.isGenerating then true
    else
      match img.processedImage with
      | none => false
      | some pimg =>
        let localX := x - img.x
        let localY := y - img.y
        let scaleX := scaledWidth / pimg.width
        let scaleY := scaledHeight / pimg.height
        let sbX := img.contentBounds.x * scaleX
        let sbY := img.contentBounds.y * scaleY
        let sbW := img.contentBounds.width * scaleX
        let sbH := img.contentBounds.height * scaleY
        if localX ≥ sbX ∧ localX ≤ sbX + sbW ∧ localY ≥ sbY ∧ localY ≤ sbY + sbH then
          true
        else false
  else false

/-- `getImageAtPosition` walks the registry from topmost (end of list) to
bottommost and returns the first sprite whose per-sprite test passes. -/
def getImageAtPosition (images : List ProcessedImage) (x y : Rat) : Option ProcessedImage :=
  images.reverse.find? fun img => hitTestSprite img x y

/-- The on-screen rectangle used by the hit test (App.tsx lines
1104-1108): position and base size scaled by `img.scale || 1`. -/
def hitRect (img : ProcessedImage) : RatRect :=
  { x := img.x, y := img.y,
    width := img.width * jsScale img.scale,
    height := img.height * jsScale img.scale }

/-- The destination rectangle of the ready-sprite draw call in
`drawCanvas` (App.tsx lines 499-518): rounded position, base size scaled
by `img.scale || 1`. -/
def drawRect (img : ProcessedImage) : RatRect :=
  { x := ((round img.x : Int) : Rat), y := ((round img.y : Int) : Rat),
    width := img.width * jsScale img.scale,
    height := img.height * jsScale img.scale }

/-! ## Generation orchestrator (generateFromImage / generateFromText,
App.tsx lines 700-859) -/

/-- Modelled from the spec: `getRemixSuggestions` is defined in
`services/geminiService.ts`, which is not part of the available source
(only its import and call sites are).  Per the spec, a failure of the
remix-suggestion call is swallowed locally and yields an empty
suggestion list, so the call is modelled as a total function of the
external outcome. -/
def getRemixSuggestions (outcome : Except Unit (List String)) : List String :=
  match outcome with
  | Except.ok l => l
  | Except.error _ => []

/-- The success patch of `generateFromImage` (App.tsx lines 743-770):
fixed target width, aspect-preserving height, recentering around the
current center, clearing the generating state. -/
def imageSuccessPatch (img : ProcessedImage) (res : ImageHandle) (bounds : RatRect)
    (suggestions : List String) : ProcessedImage :=
  let aspect := res.width / res.height
  let newWidth := IMAGE_WIDTH
  let newHeight := IMAGE_WIDTH / aspect
  let currentCenterX := img.x + img.width / 2
  let currentCenterY := img.y + img.height / 2
  { img with
    processedImage := some res,
    showOriginal := some false,
    contentBounds := bounds,
    width := newWidth,
    height := newHeight,
    x := currentCenterX - newWidth / 2,
    y := currentCenterY - newHeight / 2,
    isGenerating := false,
    sourcePreviewUrl := none,
    remixSuggestions := some suggestions,
    generatingPrompt := none,
    scale := some 1 }

/-- The success patch of `generateFromText` (App.tsx lines 824-848):
like the image patch but without the preview-url and prompt clearing. -/
def textSuccessPatch (img : ProcessedImage) (res : ImageHandle) (bounds : RatRect)
    (suggestions : List String) : ProcessedImage :=
  let aspect := res.width / res.height
  let newWidth := IMAGE_WIDTH
  let newHeight := IMAGE_WIDTH / aspect
  let currentCenterX := img.x + img.width / 2
  let currentCenterY := img.y + img.height / 2
  { img with
    processedImage := some res,
    showOriginal := some false,
    contentBounds := bounds,
    width := newWidth,
    height := newHeight,
    x := currentCenterX - newWidth / 2,
    y := currentCenterY - newHeight / 2,
    isGenerating := false,
    remixSuggestions := some suggestions,
    scale := some 1 }

/-- Registry effect of one `generateFromImage` run (App.tsx lines
726-781): on primary failure the sprite is filtered out (the catch
block, line 779); on success the per-id map applies the patch, with the
suggestion outcome folded through `getRemixSuggestions`. -/
def generateFromImageRun (images : List ProcessedImage) (id : Nat)
    (primary : Option ImageHandle) (bounds : RatRect)
    (suggestionOutcome : Except Unit (List String)) : List ProcessedImage :=
  match primary with
  | none => images.filter fun img => !(img.id == id)
  | some res =>
    let suggestions := getRemixSuggestions suggestionOutcome
    images.map fun img =>
      if img.id == id then imageSuccessPatch img res bounds suggestions else img

/-- Registry effect of one `generateFromText` run (App.tsx lines
807-858). -/
def generateFromTextRun (images : List ProcessedImage) (id : Nat)
    (primary : Option ImageHandle) (bounds : RatRect)
    (suggestionOutcome : Except Unit (List String)) : List ProcessedImage :=
  match primary with
  | none => images.filter fun img => !(img.id == id)
  | some res =>
    let suggestions := getRemixSuggestions suggestionOutcome
    images.map fun img =>
      if img.id == id then textSuccessPatch img res bounds suggestions else img

/-! ## Concrete sprites used by counterexamples and witnesses -/

/-- A ready sprite whose opaque content hugs the left edge of its
rectangle: content bounds cover only x in [0,10] of a 100-wide image. -/
def narrowSprite : ProcessedImage :=
  { id := 0,
    sourceFile := none,
    sourceText := some "tree",
    processedImage := some { width := 100, height := 100 },
    showOriginal := some false,
    x := 0, y := 0, width := 100, height := 100,
    isGenerating := false,
    contentBounds := { x := 0, y := 0, width := 10, height := 100 },
    sourcePreviewUrl := none,
    flippedHorizontally := some false,
    isVariation := some false,
    remixSuggestions := some [],
    generatingPrompt := none,
    scale := some 1 }

/-- The same sprite with the horizontal mirror flag set. -/
def narrowSpriteFlipped : ProcessedImage :=
  { narrowSprite with flippedHorizontally := some true }

/-- A sprite currently mid-generation. -/
def generatingSprite : ProcessedImage :=
  { id := 0,
    sourceFile := none,
    sourceText := some "castle",
    processedImage := none,
    showOriginal := none,
    x := 10, y := 20, width := 250, height := 250,
    isGenerating := true,
    contentBounds := { x := 0, y := 0, width := 250, height := 250 },
    sourcePreviewUrl := none,
    flippedHorizontally := some false,
    isVariation := some false,
    remixSuggestions := none,
    generatingPrompt := none,
    scale := some 1 }

/-- A stable ready sprite. -/
def readySprite : ProcessedImage :=
  { id := 0,
    sourceFile := none,
    sourceText := some "house",
    processedImage := some { width := 200, height := 100 },
    showOriginal := some false,
    x := 50, y := 60, width := 375, height := 187.5,
    isGenerating := false,
    contentBounds := { x := 5, y := 5, width := 190, height := 90 },
    sourcePreviewUrl := none,
    flippedHorizontally := some false,
    isVariation := some false,
    remixSuggestions := some ["make it red"],
    generatingPrompt := none,
    scale := some 1 }

/-- A ready sprite reachable through the combined multi-image upload:
`handleMultipleImageUpload` (App.tsx lines 1006-1030) creates its sprite
without a `flippedHorizontally` field, and the completion patch of
`generateFromMultipleImages` (App.tsx lines 945-973) spreads the sprite
without ever setting it, so the flag stays undefined (`none`) in the
ready state. -/
def combinedUploadSprite : ProcessedImage :=
  { id := 0,
    sourceFile := some 0,
    sourceText := none,
    processedImage := some { width := 375, height := 375 },
    showOriginal := some false,
    x := 100, y := 100, width := 375, height := 375,
    isGenerating := false,
    contentBounds := { x := 10, y := 10, width := 350, height := 350 },
    sourcePreviewUrl := none,
    flippedHorizontally := none,
    isVariation := none,
    remixSuggestions := some [],
    generatingPrompt := none,
    scale := some 1 }

/-! ### Generic facts about the bounding-box sweep -/

lemma mem_coords {w h : Nat} {c : Nat × Nat} :
    c ∈ coords w h ↔ c.1 < w ∧ c.2 < h := by
  obtain ⟨x, y⟩ := c
  simp only [coords, List.mem_flatMap, List.mem_map, List.mem_range, Prod.mk.injEq]
  constructor
  · rintro ⟨y0, hy0, x0, hx0, hx, hy⟩
    subst hx; subst hy; exact ⟨hx0, hy0⟩
  · rintro ⟨hx, hy⟩
    exact ⟨y, hy, x, hx, rfl, rfl⟩

lemma bboxStep_minX_le (img : PixelImage) (s : BBox) (c : Nat × Nat) :
    (bboxStep img s c).minX ≤ s.minX := by
  simp only [bboxStep]
  split
  · simp only
    split <;> omega
  · exact le_refl _

lemma bboxStep_maxX_ge (img : PixelImage) (s : BBox) (c : Nat × Nat) :
    s.maxX ≤ (bboxStep img s c).maxX := by
  simp only [bboxStep]
  split
  · simp only
    split <;> omega
  · exact le_refl _

lemma bboxStep_minY_le (img : PixelImage) (s : BBox) (c : Nat × Nat) :
    (bboxStep img s c).minY ≤ s.minY := by
  simp only [bboxStep]
  split
  · simp only
    split <;> omega
  · exact le_refl _

lemma bboxStep_maxY_ge (img : PixelImage) (s : BBox) (c : Nat × Nat) :
    s.maxY ≤ (bboxStep img s c).maxY := by
  simp only [bboxStep]
  split
  · simp only
    split <;> omega
  · exact le_refl _

lemma bbox_foldl_minX_le (img : PixelImage) :
    ∀ (l : List (Nat × Nat)) (s : BBox),
      (l.foldl (bboxStep img) s).minX ≤ s.minX := by
  intro l
  induction l with
  | nil => intro s; exact le_refl _
  | cons a l ih =>
    intro s
    exact le_trans (ih (bboxStep img s a)) (bboxStep_minX_le img s a)

lemma bbox_foldl_maxX_ge (img : PixelImage) :
    ∀ (l : List (Nat × Nat)) (s : BBox),
      s.maxX ≤ (l.foldl (bboxStep img) s).maxX := by
  intro l
  induction l with
  | nil => intro s; exact le_refl _
  | cons a l ih =>
    intro s
    exact le_trans (bboxStep_maxX_ge img s a) (ih (bboxStep img s a))

lemma bbox_foldl_minY_le (img : PixelImage) :
    ∀ (l : List (Nat × Nat)) (s : BBox),
      (l.foldl (bboxStep img) s).minY ≤ s.minY := by
  intro l
  induction l with
  | nil => intro s; exact le_refl _
  | cons a l ih =>
    intro s
    exact le_trans (ih (bboxStep img s a)) (bboxStep_minY_le img s a)

lemma bbox_foldl_maxY_ge (img : PixelImage) :
    ∀ (l : List (Nat × Nat)) (s : BBox),
      s.maxY ≤ (l.foldl (bboxStep img) s).maxY := by
  intro l
  induction l with
  | nil => intro s; exact le_refl _
  | cons a l ih =>
    intro s
    exact le_trans (bboxStep_maxY_ge img s a) (ih (bboxStep img s a))

lemma bbox_foldl_minX_ge (img : PixelImage) :
    ∀ (l : List (Nat × Nat)) (s : BBox) (B : Int),
      (∀ c ∈ l, matteAlpha img c.1 c.2 > 0 → B ≤ (c.1 : Int)) →
      B ≤ s.minX → B ≤ (l.foldl (bboxStep img) s).minX := by
  intro l
  induction l with
  | nil => intro s B _ hs; exact hs
  | cons a l ih =>
    intro s B hall hs
    refine ih (bboxStep img s a) B (fun c hc => hall c (List.mem_cons_of_mem a hc)) ?_
    simp only [bboxStep]
    split
    · rename_i halive
      have := hall a (List.mem_cons_self a l) halive
      simp only
      split <;> omega
    · exact hs

lemma bbox_foldl_maxX_le (img : PixelImage) :
    ∀ (l : List (Nat × Nat)) (s : BBox) (B : Int),
      (∀ c ∈ l, matteAlpha img c.1 c.2 > 0 → (c.1 : Int) ≤ B) →
      s.maxX ≤ B → (l.foldl (bboxStep img) s).maxX ≤ B := by
  intro l
  induction l with
  | nil => intro s B _ hs; exact hs
  | cons a l ih =>
    intro s B hall hs
    refine ih (bboxStep img s a) B (fun c hc => hall c (List.mem_cons_of_mem a hc)) ?_
    simp only [bboxStep]
    split
    · rename_i halive
      have := hall a (List.mem_cons_self a l) halive
      simp only
      split <;> omega
    · exact hs

lemma bbox_foldl_minY_ge (img : PixelImage) :
    ∀ (l : List (Nat × Nat)) (s : BBox) (B : Int),
      (∀ c ∈ l, matteAlpha img c.1 c.2 > 0 → B ≤ (c.2 : Int)) →
      B ≤ s.minY → B ≤ (l.foldl (bboxStep img) s).minY := by
  intro l
  induction l with
  | nil => intro s B _ hs; exact hs
  | cons a l ih =>
    intro s B hall hs
    refine ih (bboxStep img s a) B (fun c hc => hall c (List.mem_cons_of_mem a hc)) ?_
    simp only [bboxStep]
    split
    · rename_i halive
      have := hall a (List.mem_cons_self a l) halive
      simp only
      split <;> omega
    · exact hs

lemma bbox_foldl_maxY_le (img : PixelImage) :
    ∀ (l : List (Nat × Nat)) (s : BBox) (B : Int),
      (∀ c ∈ l, matteAlpha img c.1 c.2 > 0 → (c.2 : Int) ≤ B) →
      s.maxY ≤ B → (l.foldl (bboxStep img) s).maxY ≤ B := by
  intro l
  induction l with
  | nil => intro s B _ hs; exact hs
  | cons a l ih =>
    intro s B hall hs
    refine ih (bboxStep img s a) B (fun c hc => hall c (List.mem_cons_of_mem a hc)) ?_
    simp only [bboxStep]
    split
    · rename_i halive
      have := hall a (List.mem_cons_self a l) halive
      simp only
      split <;> omega
    · exact hs

lemma bbox_foldl_minX_le_of_mem (img : PixelImage) :
    ∀ (l : List (Nat × Nat)) (s : BBox) (c : Nat × Nat),
      c ∈ l → matteAlpha img c.1 c.2 > 0 →
      (l.foldl (bboxStep img) s).minX ≤ (c.1 : Int) := by
  intro l
  induction l with
  | nil => intro s c hc; exact absurd hc (List.not_mem_nil c)
  | cons a l ih =>
    intro s c hc halive
    rcases List.mem_cons.mp hc with h | h
    · subst h
      refine le_trans (bbox_foldl_minX_le img l (bboxStep img s c)) ?_
      simp only [bboxStep, if_pos halive]
      split <;> omega
    · exact ih (bboxStep img s a) c h halive

lemma bbox_foldl_maxX_ge_of_mem (img : PixelImage) :
    ∀ (l : List (Nat × Nat)) (s : BBox) (c : Nat × Nat),
      c ∈ l → matteAlpha img c.1 c.2 > 0 →
      (c.1 : Int) ≤ (l.foldl (bboxStep img) s).maxX := by
  intro l
  induction l with
  | nil => intro s c hc; exact absurd hc (List.not_mem_nil c)
  | cons a l ih =>
    intro s c hc halive
    rcases List.mem_cons.mp hc with h | h
    · subst h
      refine le_trans ?_ (bbox_foldl_maxX_ge img l (bboxStep img s c))
      simp only [bboxStep, if_pos halive]
      split <;> omega
    · exact ih (bboxStep img s a) c h halive

lemma bbox_foldl_minY_le_of_mem (img : PixelImage) :
    ∀ (l : List (Nat × Nat)) (s : BBox) (c : Nat × Nat),
      c ∈ l → matteAlpha img c.1 c.2 > 0 →
      (l.foldl (bboxStep img) s).minY ≤ (c.2 : Int) := by
  intro l
  induction l with
  | nil => intro s c hc; exact absurd hc (List.not_mem_nil c)
  | cons a l ih =>
    intro s c hc halive
    rcases List.mem_cons.mp hc with h | h
    · subst h
      refine le_trans (bbox_foldl_minY_le img l (bboxStep img s c)) ?_
      simp only [bboxStep, if_pos halive]
      split <;> omega
    · exact ih (bboxStep img s a) c h halive

lemma bbox_foldl_maxY_ge_of_mem (img : PixelImage) :
    ∀ (l : List (Nat × Nat)) (s : BBox) (c : Nat × Nat),
      c ∈ l → matteAlpha img c.1 c.2 > 0 →
      (c.2 : Int) ≤ (l.foldl (bboxStep img) s).maxY := by
  intro l
  induction l with
  | nil => intro s c hc; exact absurd hc (List.not_mem_nil c)
  | cons a l ih =>
    intro s c hc halive
    rcases List.mem_cons.mp hc with h | h
    · subst h
      refine le_trans ?_ (bbox_foldl_maxY_ge img l (bboxStep img s c))
      simp only [bboxStep, if_pos halive]
      split <;> omega
    · exact ih (bboxStep img s a) c h halive

lemma bbox_foldl_no_alive (img : PixelImage) :
    ∀ (l : List (Nat × Nat)) (s : BBox),
      (∀ c ∈ l, ¬ matteAlpha img c.1 c.2 > 0) →
      l.foldl (bboxStep img) s = s := by
  intro l
  induction l with
  | nil => intro s _; rfl
  | cons a l ih =>
    intro s hall
    have hstep : bboxStep img s a = s := by
      simp only [bboxStep, if_neg (hall a (List.mem_cons_self a l))]
    simp only [List.foldl_cons, hstep]
    exact ih s fun c hc => hall c (List.mem_cons_of_mem a hc)

lemma redSquare_alpha_outside {x y : Nat}
    (h : ¬(20 ≤ x ∧ x ≤ 60 ∧ 20 ≤ y ∧ y ≤ 60)) :
    matteAlpha redSquareImage x y = 0 := by
  simp only [matteAlpha, redSquareImage, COLOR_DISTANCE_THRESHOLD, distSq]
  rw [if_neg h]
  norm_num

lemma redSquare_alpha_inside {x y : Nat}
    (h : 20 ≤ x ∧ x ≤ 60 ∧ 20 ≤ y ∧ y ≤ 60) :
    matteAlpha redSquareImage x y = 255 := by
  simp only [matteAlpha, redSquareImage, COLOR_DISTANCE_THRESHOLD, distSq]
  rw [if_pos h]
  norm_num

lemma redSquare_alive_bounds {c : Nat × Nat}
    (halive : matteAlpha redSquareImage c.1 c.2 > 0) :
    20 ≤ c.1 ∧ c.1 ≤ 60 ∧ 20 ≤ c.2 ∧ c.2 ≤ 60 := by
  by_contra h
  rw [redSquare_alpha_outside h] at halive
  exact absurd halive (by norm_num)

lemma redSquare_scan : bboxScan redSquareImage = { minX := 20, minY := 20, maxX := 60, maxY := 60 } := by
  have hmem2020 : ((20, 20) : Nat × Nat) ∈ coords 64 64 := mem_coords.mpr (by norm_num)
  have hmem6060 : ((60, 60) : Nat × Nat) ∈ coords 64 64 := mem_coords.mpr (by norm_num)
  have halive2020 : matteAlpha redSquareImage 20 20 > 0 := by
    rw [redSquare_alpha_inside (by norm_num)]; norm_num
  have halive6060 : matteAlpha redSquareImage 60 60 > 0 := by
    rw [redSquare_alpha_inside (by norm_num)]; norm_num
  have h1 : (bboxScan redSquareImage).minX ≤ 20 :=
    bbox_foldl_minX_le_of_mem redSquareImage _ _ (20, 20) hmem2020 halive2020
  have h2 : (20 : Int) ≤ (bboxScan redSquareImage).minX := by
    refine bbox_foldl_minX_ge redSquareImage _ _ 20 ?_ (by norm_num [bboxInit, redSquareImage])
    intro c _ halive
    have := (redSquare_alive_bounds halive).1
    omega
  have h3 : (60 : Int) ≤ (bboxScan redSquareImage).maxX :=
    bbox_foldl_maxX_ge_of_mem redSquareImage _ _ (60, 60) hmem6060 halive6060
  have h4 : (bboxScan redSquareImage).maxX ≤ 60 := by
    refine bbox_foldl_maxX_le redSquareImage _ _ 60 ?_ (by norm_num [bboxInit])
    intro c _ halive
    have := (redSquare_alive_bounds halive).2.1
    omega
  have h5 : (bboxScan redSquareImage).minY ≤ 20 :=
    bbox_foldl_minY_le_of_mem redSquareImage _ _ (20, 20) hmem2020 halive2020
  have h6 : (20 : Int) ≤ (bboxScan redSquareImage).minY := by
    refine bbox_foldl_minY_ge redSquareImage _ _ 20 ?_ (by norm_num [bboxInit, redSquareImage])
    intro c _ halive
    have := (redSquare_alive_bounds halive).2.2.1
    omega
  have h7 : (60 : Int) ≤ (bboxScan redSquareImage).maxY :=
    bbox_foldl_maxY_ge_of_mem redSquareImage _ _ (60, 60) hmem6060 halive6060
  have h8 : (bboxScan redSquareImage).maxY ≤ 60 := by
    refine bbox_foldl_maxY_le redSquareImage _ _ 60 ?_ (by norm_num [bboxInit])
    intro c _ halive
    have := (redSquare_alive_bounds halive).2.2.2
    omega
  rcases hsc : bboxScan redSquareImage with ⟨mnX, mnY, mxX, mxY⟩
  rw [hsc] at h1 h2 h3 h4 h5 h6 h7 h8
  simp only at h1 h2 h3 h4 h5 h6 h7 h8
  simp only [BBox.mk.injEq]
  omega

/-- Claim C1: on an image with a white top-left background and a fully
opaque red square on pixels (20,20)..(60,60), the matting pass of
`processImageForTransparency` zeroes the alpha of every pixel outside the
square and returns the inclusive tight content bound
`{x := 20, y := 20, width := 41, height := 41}`. -/
theorem c1_red_square_matting :
    contentBoundsOf redSquareImage = { x := 20, y := 20, width := 41, height := 41 } ∧
    ∀ x, x < 64 → ∀ y, y < 64 →
      ¬(20 ≤ x ∧ x ≤ 60 ∧ 20 ≤ y ∧ y ≤ 60) → matteAlpha redSquareImage x y = 0 := by
  constructor
  · simp only [contentBoundsOf, redSquare_scan]
    norm_num
  · intro x _ y _ hout
    exact redSquare_alpha_outside hout

/-- Claim C2 (general part): when every pixel of the image lies within
the color-distance threshold of the top-left pixel, the matting pass
makes every pixel transparent and `contentBounds` falls back to the full
image rectangle (App.tsx line 243). -/
theorem c2_uniform_image_fallback_bounds (img : PixelImage)
    (h : ∀ x, x < img.width → ∀ y, y < img.height →
      distSq (img.pix x y) (img.pix 0 0) < (COLOR_DISTANCE_THRESHOLD : Int) ^ 2) :
    contentBoundsOf img = { x := 0, y := 0, width := img.width, height := img.height } := by
  have hscan : bboxScan img = bboxInit img := by
    refine bbox_foldl_no_alive img _ _ ?_
    intro c hc
    obtain ⟨hx, hy⟩ := mem_coords.mp hc
    have : matteAlpha img c.1 c.2 = 0 := by
      simp only [matteAlpha, if_pos (h c.1 hx c.2 hy)]
    omega
  simp only [contentBoundsOf, hscan, bboxInit]
  have hw : (0 : Int) ≤ (img.width : Int) := Int.ofNat_nonneg _
  rw [if_neg (by omega)]


/-- Witness for claim C2: the uniform 100 by 100 all-white image mattes
to the full-rectangle fallback bounds. -/
theorem c2_uniform_image_fallback_bounds_witness :
    contentBoundsOf allWhiteImage = { x := 0, y := 0, width := 100, height := 100 } :=
  c2_uniform_image_fallback_bounds allWhiteImage (by
    intro x _ y _
    simp only [allWhiteImage, distSq, COLOR_DISTANCE_THRESHOLD]
    norm_num)

/-- Claim C3: for every input image, the `contentBounds` returned by the
matting pass is contained in the full pixel rectangle of the image, in
both the tight-bound case and the fallback case. -/
theorem c3_contentBounds_within_image (img : PixelImage) :
    0 ≤ (contentBoundsOf img).x ∧ 0 ≤ (contentBoundsOf img).y ∧
    (contentBoundsOf img).x + (contentBoundsOf img).width ≤ (img.width : Int) ∧
    (contentBoundsOf img).y + (contentBoundsOf img).height ≤ (img.height : Int) := by
  have hminX : (0 : Int) ≤ (bboxScan img).minX := by
    refine bbox_foldl_minX_ge img _ _ 0 (fun c _ _ => Int.ofNat_nonneg _) ?_
    exact Int.ofNat_nonneg _
  have hminY : (0 : Int) ≤ (bboxScan img).minY := by
    refine bbox_foldl_minY_ge img _ _ 0 (fun c _ _ => Int.ofNat_nonneg _) ?_
    exact Int.ofNat_nonneg _
  have hmaxX : (bboxScan img).maxX ≤ (img.width : Int) - 1 := by
    refine bbox_foldl_maxX_le img _ _ ((img.width : Int) - 1) ?_
      (by simp only [bboxInit]; omega)
    intro c hc _
    have := (mem_coords.mp hc).1
    omega
  have hmaxY : (bboxScan img).maxY ≤ (img.height : Int) - 1 := by
    refine bbox_foldl_maxY_le img _ _ ((img.height : Int) - 1) ?_
      (by simp only [bboxInit]; omega)
    intro c hc _
    have := (mem_coords.mp hc).2
    omega
  rcases hsc : bboxScan img with ⟨mnX, mnY, mxX, mxY⟩
  rw [hsc] at hminX hminY hmaxX hmaxY
  simp only at hminX hminY hmaxX hmaxY
  simp only [contentBoundsOf, hsc]
  split_ifs with hcond
  · simp only
    omega
  · simp only
    omega

/-- Witness for claim C1: the alpha-zero part evaluated at the concrete
outside pixel (0,0). -/
theorem c1_red_square_matting_witness :
    matteAlpha redSquareImage 0 0 = 0 :=
  c1_red_square_matting.2 0 (by norm_num) 0 (by norm_num) (by norm_num)

/-- Witness for claim C3, evaluated on the concrete all-white image. -/
theorem c3_contentBounds_within_image_witness :
    0 ≤ (contentBoundsOf allWhiteImage).x ∧ 0 ≤ (contentBoundsOf allWhiteImage).y ∧
    (contentBoundsOf allWhiteImage).x + (contentBoundsOf allWhiteImage).width ≤ (allWhiteImage.width : Int) ∧
    (contentBoundsOf allWhiteImage).y + (contentBoundsOf allWhiteImage).height ≤ (allWhiteImage.height : Int) :=
  c3_contentBounds_within_image allWhiteImage

/-! ## Claim C4 -/

/-- Counterexample to claim C4: the pointer (5, 50) hits the unflipped
narrow sprite inside its content bounds, but the mirrored pointer
(95, 50) = (width - 5, 50) misses the flipped sprite, because
`getImageAtPosition` tests the unmirrored content bounds regardless of
`flippedHorizontally`. -/
theorem c4_flip_hit_test_counterexample :
    getImageAtPosition [narrowSprite] 5 50 = some narrowSprite ∧
    getImageAtPosition [narrowSpriteFlipped] 95 50 = none := by
  constructor <;>
    norm_num [getImageAtPosition, hitTestSprite, narrowSprite, narrowSpriteFlipped,
      jsScale, List.find?]

/-- Claim C4, amended: `drawCanvas` mirrors a flipped sprite around its
own rectangle, but `getImageAtPosition` ignores `flippedHorizontally`
entirely: the hit test of a sprite is identical for every value of the
flag, so a pointer hits the flipped sprite exactly at the points of the
unmirrored content bounds, not at their mirror image. -/
theorem c4_hit_test_ignores_flip (img : ProcessedImage) (b : Option Bool) (x y : Rat) :
    hitTestSprite { img with flippedHorizontally := b } x y = hitTestSprite img x y :=
  rfl

/-! ## Claim C5 -/

/-- Counterexample to claim C5: with a single mid-generation sprite
selected, `isActionDisabled` holds, yet dispatching the scale-change
action mutates the registry: `handleScaleChange` contains no guard
check. -/
theorem c5_scale_guard_counterexample :
    isActionDisabled [generatingSprite] (some 0) = true ∧
    handleScaleChange [generatingSprite] 0 2 ≠ [generatingSprite] := by
  decide

/-- Claim C5, amended: when no sprite is selected or the selected sprite
is mid-generation, the five guarded handlers (regenerate, flip,
duplicate, delete, remix) leave the registry unchanged; the scale-change
handler checks no guard and mutates the target sprite regardless, its
guard existing only in the UI affordance that renders the slider. -/
theorem c5_guarded_actions_noop (images : List ProcessedImage) (sel : Option Nat)
    (newId : Nat) (prompt : String)
    (h : isActionDisabled images sel = true) :
    handleRegenerateSelected images sel = images ∧
    handleFlipSelected images sel = images ∧
    handleDuplicateSelected images sel newId = images ∧
    handleDeleteSelected images sel = images ∧
    handleRemixSubmit images sel newId prompt = images := by
  refine ⟨?_, ?_, ?_, ?_, ?_⟩ <;>
    simp [handleRegenerateSelected, handleFlipSelected, handleDuplicateSelected,
      handleDeleteSelected, handleRemixSubmit, h]

/-- Witness for the amended claim C5, evaluated on the registry holding
one mid-generation sprite. -/
theorem c5_guarded_actions_noop_witness :
    handleRegenerateSelected [generatingSprite] (some 0) = [generatingSprite] ∧
    handleFlipSelected [generatingSprite] (some 0) = [generatingSprite] ∧
    handleDuplicateSelected [generatingSprite] (some 0) 1 = [generatingSprite] ∧
    handleDeleteSelected [generatingSprite] (some 0) = [generatingSprite] ∧
    handleRemixSubmit [generatingSprite] (some 0) 1 "p" = [generatingSprite] :=
  c5_guarded_actions_noop [generatingSprite] (some 0) 1 "p" (by decide)

/-! ## Claim C6 -/

/-- Claim C6: when the primary image call succeeds and the subsequent
remix-suggestion call fails, the sprite still transitions to ready
(`isGenerating = false`, `processedImage` set) with an empty suggestion
list, and no sprite is removed from the registry. -/
theorem c6_suggestion_failure_still_ready (images : List ProcessedImage) (id : Nat)
    (res : ImageHandle) (bounds : RatRect) (s : ProcessedImage)
    (hs : s ∈ images) (hid : s.id = id) :
    (generateFromImageRun images id (some res) bounds (Except.error ())).length
      = images.length ∧
    ∃ t ∈ generateFromImageRun images id (some res) bounds (Except.error ()),
      t.id = id ∧ t.isGenerating = false ∧ t.processedImage = some res ∧
      t.remixSuggestions = some [] := by
  constructor
  · simp [generateFromImageRun]
  · refine ⟨imageSuccessPatch s res bounds [], ?_, ?_, ?_, ?_, ?_⟩
    · simp only [generateFromImageRun, getRemixSuggestions]
      exact List.mem_map.mpr ⟨s, hs, by rw [if_pos (by simp [hid])]⟩
    · simp [imageSuccessPatch, hid]
    · simp [imageSuccessPatch]
    · simp [imageSuccessPatch]
    · simp [imageSuccessPatch]

/-- Witness for claim C6: a concrete mid-generation sprite whose
suggestion call fails still reaches the ready state. -/
theorem c6_suggestion_failure_still_ready_witness :
    (generateFromImageRun [generatingSprite] 0 (some { width := 400, height := 300 })
        { x := 0, y := 0, width := 1, height := 1 } (Except.error ())).length
      = [generatingSprite].length ∧
    ∃ t ∈ generateFromImageRun [generatingSprite] 0 (some { width := 400, height := 300 })
        { x := 0, y := 0, width := 1, height := 1 } (Except.error ()),
      t.id = 0 ∧ t.isGenerating = false ∧
      t.processedImage = some { width := 400, height := 300 } ∧
      t.remixSuggestions = some [] :=
  c6_suggestion_failure_still_ready [generatingSprite] 0
    { width := 400, height := 300 } { x := 0, y := 0, width := 1, height := 1 }
    generatingSprite (List.mem_singleton.mpr rfl) rfl

/-! ## Claim C7 -/

/-- Claim C7: once a sprite id has been deleted from the registry, a
generation completion targeting that id (success or failure path of
`generateFromImage`) leaves the registry unchanged: neither an error nor
an insertion. -/
theorem c7_completion_after_delete_noop (images : List ProcessedImage) (i : Nat)
    (primary : Option ImageHandle) (bounds : RatRect) (so : Except Unit (List String))
    (h : isActionDisabled images (some i) = false) :
    generateFromImageRun (handleDeleteSelected images (some i)) i primary bounds so
      = handleDeleteSelected images (some i) := by
  have hni : ∀ img ∈ handleDeleteSelected images (some i), (img.id == i) = false := by
    simp only [handleDeleteSelected, h, if_neg]
    intro img hm
    have := List.of_mem_filter hm
    simpa using this
  cases primary with
  | none =>
    simp only [generateFromImageRun]
    refine List.filter_eq_self.mpr ?_
    intro a ha
    simp [hni a ha]
  | some res =>
    simp only [generateFromImageRun]
    have hcongr : ∀ a ∈ handleDeleteSelected images (some i),
        (if a.id == i then imageSuccessPatch a res bounds (getRemixSuggestions so) else a)
          = a := by
      intro a ha
      rw [if_neg (by simp [hni a ha])]
    rw [List.map_congr_left hcongr]
    simp

/-- Witness for claim C7: delete the only (ready, selected) sprite, then
let its pending completion arrive; the registry stays empty. -/
theorem c7_completion_after_delete_noop_witness :
    generateFromImageRun (handleDeleteSelected [readySprite] (some 0)) 0
        (some { width := 400, height := 300 }) { x := 0, y := 0, width := 1, height := 1 }
        (Except.ok ["a"])
      = handleDeleteSelected [readySprite] (some 0) :=
  c7_completion_after_delete_noop [readySprite] 0 (some { width := 400, height := 300 })
    { x := 0, y := 0, width := 1, height := 1 } (Except.ok ["a"]) (by decide)

/-! ## Claim C8 -/

/-- Claim C8: a text-prompt generation completing with a 400 by 300
image patches the sprite to width 375, height 375 * 300 / 400 = 281.25,
a position whose center coincides with the center of the rectangle the
sprite had immediately before the patch, and `isGenerating = false`. -/
theorem c8_text_generation_geometry (images : List ProcessedImage) (id : Nat)
    (bounds : RatRect) (so : Except Unit (List String)) (s : ProcessedImage)
    (hs : s ∈ images) (hid : s.id = id) :
    ∃ t ∈ generateFromTextRun images id (some { width := 400, height := 300 }) bounds so,
      t.width = 375 ∧ t.height = 281.25 ∧
      t.x + 375 / 2 = s.x + s.width / 2 ∧
      t.y + 281.25 / 2 = s.y + s.height / 2 ∧
      t.isGenerating = false := by
  have hh : (IMAGE_WIDTH / ((400 : Rat) / 300)) = 281.25 := by
    norm_num [IMAGE_WIDTH]
  refine ⟨textSuccessPatch s { width := 400, height := 300 } bounds (getRemixSuggestions so),
    ?_, ?_, ?_, ?_, ?_, ?_⟩
  · simp only [generateFromTextRun]
    exact List.mem_map.mpr ⟨s, hs, by rw [if_pos (by simp [hid])]⟩
  · simp [textSuccessPatch, IMAGE_WIDTH]
  · simp only [textSuccessPatch]
    exact hh
  · simp only [textSuccessPatch, IMAGE_WIDTH]
    ring
  · simp only [textSuccessPatch]
    rw [hh]
    ring
  · simp [textSuccessPatch]

/-- Witness for claim C8, evaluated on the concrete generating sprite at
(10, 20) with a 250 by 250 placeholder rectangle. -/
theorem c8_text_generation_geometry_witness :
    ∃ t ∈ generateFromTextRun [generatingSprite] 0 (some { width := 400, height := 300 })
        { x := 0, y := 0, width := 1, height := 1 } (Except.ok []),
      t.width = 375 ∧ t.height = 281.25 ∧
      t.x + 375 / 2 = generatingSprite.x + generatingSprite.width / 2 ∧
      t.y + 281.25 / 2 = generatingSprite.y + generatingSprite.height / 2 ∧
      t.isGenerating = false :=
  c8_text_generation_geometry [generatingSprite] 0
    { x := 0, y := 0, width := 1, height := 1 } (Except.ok []) generatingSprite
    (List.mem_singleton.mpr rfl) rfl

/-! ## Claim C9 -/

lemma isActionDisabled_some (images : List ProcessedImage) (i : Nat) :
    isActionDisabled images (some i)
      = (match images.find? (fun img => img.id == i) with
         | none => true
         | some s => s.isGenerating) := rfl

lemma find?_of_not_disabled (images : List ProcessedImage) (i : Nat)
    (h : isActionDisabled images (some i) = false) :
    ∃ s, images.find? (fun img => img.id == i) = some s ∧ s.isGenerating = false := by
  rw [isActionDisabled_some] at h
  cases hf : images.find? (fun img => img.id == i) with
  | none => rw [hf] at h; exact absurd h (by simp)
  | some s => rw [hf] at h; exact ⟨s, rfl, h⟩

lemma handleFlipSelected_eq (images : List ProcessedImage) (i : Nat)
    (h : isActionDisabled images (some i) = false) :
    handleFlipSelected images (some i)
      = images.map (fun img =>
          if img.id == i then
            { img with flippedHorizontally := some (jsNot img.flippedHorizontally) }
          else img) := by
  obtain ⟨s, hf, _⟩ := find?_of_not_disabled images i h
  simp [handleFlipSelected, h, hf]

/-- Counterexample to claim C9 as stated: the combined multi-image
upload produces a ready sprite whose `flippedHorizontally` is undefined.
With that sprite selected and not generating - a case the claim covers -
applying the flip action twice does not restore the registry exactly:
the flag goes from undefined (`none`) through `some true` to an explicit
`some false`, because JavaScript `!undefined` is `true`. -/
theorem c9_flip_involution_counterexample :
    isActionDisabled [combinedUploadSprite] (some 0) = false ∧
    combinedUploadSprite.flippedHorizontally = none ∧
    handleFlipSelected (handleFlipSelected [combinedUploadSprite] (some 0)) (some 0)
      ≠ [combinedUploadSprite] := by
  decide

/-- Claim C9, amended: on a registry whose selected sprite is not
generating, each flip toggles exactly the `flippedHorizontally` field of
the selected sprite and nothing else; and whenever that sprite carries a
defined (boolean) flip flag - true of every sprite except those created
by the combined multi-image upload, which leaves the flag undefined -
applying the flip action twice restores the registry exactly.  For an
undefined flag the double flip instead leaves an explicit false behind,
as the counterexample shows. -/
theorem c9_flip_involution (images : List ProcessedImage) (i : Nat)
    (hguard : isActionDisabled images (some i) = false)
    (hdef : ∀ img ∈ images, img.id = i → img.flippedHorizontally.isSome = true) :
    handleFlipSelected images (some i)
      = images.map (fun img =>
          if img.id == i then
            { img with flippedHorizontally := some (jsNot img.flippedHorizontally) }
          else img) ∧
    handleFlipSelected (handleFlipSelected images (some i)) (some i) = images := by
  obtain ⟨s, hf, hsg⟩ := find?_of_not_disabled images i hguard
  have heq1 := handleFlipSelected_eq images i hguard
  refine ⟨heq1, ?_⟩
  have hpred : ∀ img : ProcessedImage,
      ((if img.id == i then
          { img with flippedHorizontally := some (jsNot img.flippedHorizontally) }
        else img).id == i) = (img.id == i) := by
    intro img
    by_cases hc : (img.id == i) = true
    · rw [if_pos hc]
    · rw [if_neg (by simp [hc])]
  have hf2 : (images.map (fun img =>
      if img.id == i then
        { img with flippedHorizontally := some (jsNot img.flippedHorizontally) }
      else img)).find? (fun img => img.id == i)
      = some (if s.id == i then
          { s with flippedHorizontally := some (jsNot s.flippedHorizontally) }
        else s) := by
    rw [List.find?_map]
    have : ((fun img : ProcessedImage => img.id == i) ∘ (fun img =>
        if img.id == i then
          { img with flippedHorizontally := some (jsNot img.flippedHorizontally) }
        else img)) = fun img => img.id == i := by
      funext img
      exact hpred img
    rw [this, hf]
    rfl
  have hguard2 : isActionDisabled (images.map (fun img =>
      if img.id == i then
        { img with flippedHorizontally := some (jsNot img.flippedHorizontally) }
      else img)) (some i) = false := by
    rw [isActionDisabled_some, hf2]
    by_cases hc : (s.id == i) = true
    · rw [if_pos hc]
      exact hsg
    · rw [if_neg hc]
      exact hsg
  have heq2 := handleFlipSelected_eq (images.map (fun img =>
      if img.id == i then
        { img with flippedHorizontally := some (jsNot img.flippedHorizontally) }
      else img)) i hguard2
  rw [heq1, heq2, List.map_map]
  have hdouble : ∀ a ∈ images,
      ((fun img : ProcessedImage =>
          if img.id == i then
            { img with flippedHorizontally := some (jsNot img.flippedHorizontally) }
          else img) ∘ (fun img =>
          if img.id == i then
            { img with flippedHorizontally := some (jsNot img.flippedHorizontally) }
          else img)) a = a := by
    intro a ha
    simp only [Function.comp_apply]
    by_cases hc : (a.id == i) = true
    · rw [if_pos hc]
      rw [if_pos hc]
      obtain ⟨b, hb⟩ := Option.isSome_iff_exists.mp (hdef a ha (by simpa using hc))
      have hjs : jsNot (some (jsNot a.flippedHorizontally)) = b := by
        simp [jsNot, hb]
      rw [hjs, ← hb]
    · rw [if_neg (by simp [hc]), if_neg (by simp [hc])]
  rw [List.map_congr_left hdouble]
  simp

/-- Witness for claim C9, evaluated on the registry holding one ready
sprite with a defined flip flag. -/
theorem c9_flip_involution_witness :
    handleFlipSelected [readySprite] (some 0)
      = [readySprite].map (fun img =>
          if img.id == 0 then
            { img with flippedHorizontally := some (jsNot img.flippedHorizontally) }
          else img) ∧
    handleFlipSelected (handleFlipSelected [readySprite] (some 0)) (some 0) = [readySprite] :=
  c9_flip_involution [readySprite] 0 (by decide) (by decide)

/-! ## Claim C10 -/

/-- Claim C10: a scale change updates only the `scale` field of the
target sprite; every other field of every sprite is unchanged, and the
on-screen rectangles used by the hit test and by the draw call keep the
same top-left corner. -/
theorem c10_scale_topleft_anchored (images : List ProcessedImage) (imageId : Nat)
    (newScale : Rat) :
    List.Forall₂ (fun s t =>
      t.id = s.id ∧ t.x = s.x ∧ t.y = s.y ∧ t.width = s.width ∧ t.height = s.height ∧
      t.isGenerating = s.isGenerating ∧ t.contentBounds = s.contentBounds ∧
      t.processedImage = s.processedImage ∧ t.flippedHorizontally = s.flippedHorizontally ∧
      t.sourceFile = s.sourceFile ∧ t.sourceText = s.sourceText ∧
      t.remixSuggestions = s.remixSuggestions ∧
      (hitRect t).x = (hitRect s).x ∧ (hitRect t).y = (hitRect s).y ∧
      (drawRect t).x = (drawRect s).x ∧ (drawRect t).y = (drawRect s).y)
      images (handleScaleChange images imageId newScale) := by
  induction images with
  | nil => exact List.Forall₂.nil
  | cons a l ih =>
    simp only [handleScaleChange, List.map_cons] at ih ⊢
    refine List.Forall₂.cons ?_ ih
    by_cases hc : (a.id == imageId) = true
    · rw [if_pos hc]
      exact ⟨rfl, rfl, rfl, rfl, rfl, rfl, rfl, rfl, rfl, rfl, rfl, rfl, rfl, rfl, rfl, rfl⟩
    · rw [if_neg (by simp [hc])]
      exact ⟨rfl, rfl, rfl, rfl, rfl, rfl, rfl, rfl, rfl, rfl, rfl, rfl, rfl, rfl, rfl, rfl⟩
